import Mathlib

/-!
Shallow embedding of the `stereonet` library core (src/core.ts) and the pure
geometry helper (src/geometry.ts).

The `Stereonet` class keeps two JavaScript `Map`s keyed by `id.toString()`
where `id` is a natural number; since `Nat.toString` is injective we key the
embedded maps by `Nat` directly.  A JS `Map` is modelled as an association
list in insertion order with unique keys: `Map.set` replaces in place when the
key is present and appends otherwise, `Map.delete` removes the entry with the
key, `Map.size` is the number of entries.  Angles are JS numbers used only
through arithmetic and comparisons, embedded as `ℚ`.  Rendered SVG primitives
are embedded by the data that the code computes for them (graticule extents,
point coordinates, rotation); DOM attributes, styles-as-attributes, tooltips
and animations are presentation-only and carry no registry state.
-/

/-- JS `Map.set` / object property assignment on an association list:
replace the value in place if the key is present, append otherwise. -/
def mapSet {κ α : Type} [BEq κ] (l : List (κ × α)) (k : κ) (v : α) : List (κ × α) :=
  if l.any (fun e => e.1 == k) then
    l.map (fun e => if e.1 == k then (k, v) else e)
  else
    l ++ [(k, v)]

/-- JS `Map.delete`: drop the entry with the given key (no-op when absent;
keys are unique in a `Map`, so the filter removes at most one entry on any
state reachable through `mapSet`). -/
def mapDelete {κ α : Type} [BEq κ] (l : List (κ × α)) (k : κ) : List (κ × α) :=
  l.filter (fun e => !(e.1 == k))

/-- JS `Map.get` / object property read (own properties): first value stored
under the key. -/
def mapFind {κ α : Type} [BEq κ] (l : List (κ × α)) (k : κ) : Option α :=
  match l with
  | [] => none
  | e :: rest => if e.1 == k then some e.2 else mapFind rest k

/-- Mathematical modulus on ℚ, used to state the spec's `(d + 180) mod 360`. -/
def qmod (x y : ℚ) : ℚ := x - y * (⌊x / y⌋ : ℤ)

/-- The data the core computes for a rendered SVG primitive.
`arc` is the graticule band of `_renderPlaneAsArc` (longitude extent start and
end, rotation about the plot centre); `point` is the GeoJSON point of
`_renderPlaneAsPole` / `addLine` (longitude, latitude, rotation about the
plot centre). -/
inductive RenderedPath where
  | arc (extentStart extentEnd rotation : ℚ)
  | point (lon lat rotation : ℚ)
deriving DecidableEq, Repr

/-- `PlaneData` from src/types.ts: the stored measurement plus the rendered
primitive.  `path` is `Option` because `addPlane` leaves `path = null` when
the representation string matches neither branch. -/
structure PlaneData where
  dipAngle : ℚ
  dipDirection : ℚ
  path : Option RenderedPath
deriving DecidableEq, Repr

/-- `LineData`: same shape as `PlaneData` (stored measurement plus rendered
point primitive). -/
structure LineData where
  dipAngle : ℚ
  dipDirection : ℚ
  path : Option RenderedPath
deriving DecidableEq, Repr

/-- The registry-relevant state of the `Stereonet` class. -/
structure Stereonet where
  width : ℚ
  height : ℚ
  styles : List (String × List (String × String))
  planeRepresentation : String
  pointSize : ℚ
  planes : List (Nat × PlaneData)
  lines : List (Nat × LineData)
deriving DecidableEq, Repr

namespace Stereonet

/-- `DEFAULT_STYLE` from src/core.ts; JS numeric values appear here as the
strings they serialize to in a template literal. -/
def DEFAULT_STYLE : List (String × List (String × String)) :=
  [("outline",
     [("fill", "none"), ("stroke", "#000"), ("stroke-width", "4px"),
      ("stroke-opacity", "0.5")]),
   ("graticule",
     [("fill", "none"), ("stroke", " #777"), ("stroke-width", ".5px"),
      ("stroke-opacity", "0.5")]),
   ("graticule_10_deg",
     [("stroke", "#000"), ("stroke-width", "0.6"), ("fill", "none")]),
   ("crosshairs",
     [("stroke", "#000"), ("stroke-width", "1"), ("fill", "none")]),
   ("data_plane",
     [("stroke", "#d14747"), ("stroke-width", "3"), ("fill", "none")]),
   ("data_plane_pole",
     [("fill", "#d14747"), ("stroke", "#d14747"), ("stroke-width", "2"),
      ("stroke-opacity", "0.5"), ("fill-opacity", "1")]),
   ("data_line",
     [("fill", "#0328fc"), ("stroke", "#0328fc"), ("stroke-width", "2"),
      ("stroke-opacity", "0.5"), ("fill-opacity", "1")]),
   ("cardinal",
     [("fill", "#000"), ("font-size", "12px"), ("text-anchor", "middle")])]

/-- The constructor with default options: width and height from the container
rectangle (square aspect), default styles, representation `"arc"`, point size
5, empty registries. -/
def mkStereonet (w : ℚ) : Stereonet :=
  { width := w
    height := w
    styles := DEFAULT_STYLE
    planeRepresentation := "arc"
    pointSize := 5
    planes := []
    lines := [] }

/-- `_validateDipDirection` from src/core.ts: dip angle must lie in [0, 90]
and dip direction in [0, 360], both inclusive; out-of-range input only emits a
console warning and returns `false`. -/
def _validateDipDirection (dipAngle dipDirection : ℚ) : Bool :=
  if dipAngle < 0 ∨ dipAngle > 90 then
    false
  else if dipDirection < 0 ∨ dipDirection > 360 then
    false
  else
    true

/-- `_calculatePoleCoordinates`: `dd = dipDirection + 180`, normalized by a
single subtraction of 360 when `dd >= 360`; paired with `90 - dipAngle`. -/
def _calculatePoleCoordinates (dipAngle dipDirection : ℚ) : ℚ × ℚ :=
  let dd := dipDirection + 180
  let dd := if dd ≥ 360 then dipDirection + 180 - 360 else dd
  (90 - dipAngle, dd)

/-- The geometry `_renderPlaneAsArc` computes: a one-degree graticule band at
longitudes `[90 - dipAngle, 90 - (dipAngle - 1)]`, rotated by
`dipDirection - 90` about the plot centre. -/
def _renderPlaneAsArc (dipAngle dipDirection : ℚ) : RenderedPath :=
  RenderedPath.arc (90 - dipAngle) (90 - (dipAngle - 1)) (dipDirection - 90)

/-- The geometry `_renderPlaneAsPole` computes: the GeoJSON point
`[0, 90 - poleCoords.1]`, rotated by `poleCoords.2` about the plot centre. -/
def _renderPlaneAsPole (dipAngle dipDirection : ℚ) : RenderedPath :=
  let poleCoords := _calculatePoleCoordinates dipAngle dipDirection
  RenderedPath.point 0 (90 - poleCoords.1) poleCoords.2

/-- The `let path = null; if arc ...; if pole ...` dispatch shared by
`addPlane` and `setPlaneRepresentation`. -/
def renderPlanePath (representation : String) (dipAngle dipDirection : ℚ) :
    Option RenderedPath :=
  if representation = "arc" then some (_renderPlaneAsArc dipAngle dipDirection)
  else if representation = "pole" then some (_renderPlaneAsPole dipAngle dipDirection)
  else none

/-- `addPlane` from src/core.ts: validate, allocate `id = planes.size`, render
per the active representation, store `{dipAngle, dipDirection, path}` under
`id`, return the id.  (The render helper transiently sets the map entry to the
bare path under the same key; `addPlane` immediately overwrites it with the
data record, so only the final entry is observable.)  Returns the produced id
(or `none` on rejected input) together with the post-call state. -/
def addPlane (dipAngle dipDirection : ℚ) (s : Stereonet) : Option Nat × Stereonet :=
  if !_validateDipDirection dipAngle dipDirection then
    (none, s)
  else
    let id := s.planes.length
    let path := renderPlanePath s.planeRepresentation dipAngle dipDirection
    (some id,
     { s with planes := mapSet s.planes id ⟨dipAngle, dipDirection, path⟩ })

/-- `removePlane`: delete the entry (and dispose its primitive) when present,
otherwise do nothing. -/
def removePlane (planeId : Nat) (s : Stereonet) : Stereonet :=
  { s with planes := mapDelete s.planes planeId }

/-- `getPlanes`: snapshot of the plane registry as `(id, value)` pairs in
insertion order (the source exposes the pair as `{id, path}` where `path` is
the stored map value). -/
def getPlanes (s : Stereonet) : List (Nat × PlaneData) :=
  s.planes.map (fun e => (e.1, e.2))

/-- `addLine`: validate, allocate `id = lines.size`, render the GeoJSON point
`[0, 90 - dipAngle]` rotated by `dipDirection`, store the entry, return the
id. -/
def addLine (dipAngle dipDirection : ℚ) (s : Stereonet) : Option Nat × Stereonet :=
  if !_validateDipDirection dipAngle dipDirection then
    (none, s)
  else
    let id := s.lines.length
    let path := RenderedPath.point 0 (90 - dipAngle) dipDirection
    (some id,
     { s with lines := mapSet s.lines id ⟨dipAngle, dipDirection, some path⟩ })

/-- `removeLine`: delete the entry when present, otherwise do nothing. -/
def removeLine (lineId : Nat) (s : Stereonet) : Stereonet :=
  { s with lines := mapDelete s.lines lineId }

/-- `getLines`: snapshot of the line registry in insertion order. -/
def getLines (s : Stereonet) : List (Nat × LineData) :=
  s.lines.map (fun e => (e.1, e.2))

/-- `setPlaneRepresentation`: throw on a mode other than `"pole"` / `"arc"`
(the throw happens before any mutation, so the state is returned unchanged
next to the error message); otherwise set the mode, cache the entries, clear
the map, and re-render every cached measurement under the new mode keeping its
key. -/
def setPlaneRepresentation (representation : String) (s : Stereonet) :
    Stereonet × Option String :=
  if representation ≠ "pole" ∧ representation ≠ "arc" then
    (s, some ("Invalid representation type: " ++ representation ++
              ". Use \"pole\" or \"arc\"."))
  else
    let s₀ := { s with planeRepresentation := representation }
    let cached := s₀.planes
    let cleared := { s₀ with planes := ([] : List (Nat × PlaneData)) }
    ({ cleared with
        planes := cached.map (fun e =>
          (e.1,
           { dipAngle := e.2.dipAngle
             dipDirection := e.2.dipDirection
             path := renderPlanePath representation e.2.dipAngle e.2.dipDirection })) },
     none)

/-- `getStyle` serialization: `Object.entries(style).map(([k, v]) => ...)`
rendered as `k: v;` and joined by single spaces. -/
def serializeStyle (style : List (String × String)) : String :=
  String.intercalate " " (style.map (fun kv => kv.1 ++ ": " ++ kv.2 ++ ";"))

/-- `getStyle`: look the class name up in `this.styles`; throw when absent,
otherwise return the serialized string (never the stored object). -/
def getStyle (className : String) (s : Stereonet) : Except String String :=
  match mapFind s.styles className with
  | none => Except.error ("Style for class \"" ++ className ++ "\" not found.")
  | some style => Except.ok (serializeStyle style)

/-- `setStyle`: `this.styles[className] = style`. -/
def setStyle (className : String) (style : List (String × String)) (s : Stereonet) :
    Stereonet :=
  { s with styles := mapSet s.styles className style }

/-- `_resize`: take the new container width (square aspect), rescale, clear
both registries, and re-issue `addPlane` / `addLine` for every cached
measurement in insertion order. -/
def _resize (newWidth : ℚ) (s : Stereonet) : Stereonet :=
  let s₀ := { s with width := newWidth, height := newWidth }
  let currentPlanes := s₀.planes
  let currentLines := s₀.lines
  let cleared := { s₀ with planes := ([] : List (Nat × PlaneData)),
                           lines := ([] : List (Nat × LineData)) }
  let s₁ := currentPlanes.foldl
    (fun acc e => (addPlane e.2.dipAngle e.2.dipDirection acc).2) cleared
  currentLines.foldl
    (fun acc e => (addLine e.2.dipAngle e.2.dipDirection acc).2) s₁

end Stereonet

/-- Angular distance from the projection centre (longitude 0, latitude 0) to
a point on the central meridian (longitude 0, latitude `lat`): every point the
core renders sits on the central meridian before its rotation about the plot
centre is applied, at angular (polar) distance `|lat|` from the centre. -/
def centralMeridianPolarDistance (lat : ℚ) : ℚ := |lat|

namespace Stereonet

/-- The validator accepts exactly the inclusive ranges [0, 90] and [0, 360]. -/
lemma validate_iff (a d : ℚ) :
    _validateDipDirection a d = true ↔ (0 ≤ a ∧ a ≤ 90 ∧ 0 ≤ d ∧ d ≤ 360) := by
  unfold _validateDipDirection
  split_ifs with h1 h2
  · simp only [Bool.false_eq_true, false_iff]
    push_neg
    intro ha0 ha90 _
    rcases h1 with h | h <;> linarith
  · simp only [Bool.false_eq_true, false_iff]
    push_neg
    intro _ _ hd0
    rcases h2 with h | h <;> linarith
  · push_neg at h1 h2
    simp only [true_iff]
    exact ⟨h1.1, h1.2, h2.1, h2.2⟩

/-- `Map.set` appends when the key is absent. -/
lemma mapSet_of_not_mem_keys {κ α : Type} [BEq κ] [LawfulBEq κ]
    (l : List (κ × α)) (k : κ) (v : α) (h : k ∉ l.map Prod.fst) :
    mapSet l k v = l ++ [(k, v)] := by
  unfold mapSet
  rw [if_neg]
  simp only [List.any_eq_true, beq_iff_eq, not_exists, not_and]
  intro e he heq
  exact h (List.mem_map.2 ⟨e, he, heq⟩)

/-- Looking a key up after an in-place replacement finds the new value. -/
lemma mapFind_map_update {κ α : Type} [BEq κ] [LawfulBEq κ]
    (l : List (κ × α)) (k : κ) (v : α) (h : l.any (fun e => e.1 == k) = true) :
    mapFind (l.map (fun e => if e.1 == k then (k, v) else e)) k = some v := by
  induction l with
  | nil => simp at h
  | cons e l ih =>
    by_cases he : (e.1 == k) = true
    · simp [mapFind, he]
    · have h' : l.any (fun e => e.1 == k) = true := by
        simpa [List.any_cons, he] using h
      simp [mapFind, he, ih h']

/-- Looking a key up after appending it finds the appended value. -/
lemma mapFind_append_right {κ α : Type} [BEq κ] [LawfulBEq κ]
    (l : List (κ × α)) (k : κ) (v : α) (h : l.any (fun e => e.1 == k) = false) :
    mapFind (l ++ [(k, v)]) k = some v := by
  induction l with
  | nil => simp [mapFind]
  | cons e l ih =>
    simp only [List.any_cons, Bool.or_eq_false_iff] at h
    simp [mapFind, h.1, ih h.2]

/-- `Map.get` after `Map.set` of the same key yields the stored value. -/
lemma mapFind_mapSet_self {κ α : Type} [BEq κ] [LawfulBEq κ]
    (l : List (κ × α)) (k : κ) (v : α) :
    mapFind (mapSet l k v) k = some v := by
  unfold mapSet
  by_cases hany : l.any (fun e => e.1 == k) = true
  · rw [if_pos hany]
    exact mapFind_map_update l k v hany
  · rw [if_neg hany]
    exact mapFind_append_right l k v (Bool.eq_false_iff.2 hany)

end Stereonet

namespace Stereonet

/-- Folding `addPlane` over a list of stored measurements (the re-add loop of
`_resize`): when the accumulator's plane ids are exactly `0..n-1` and every
measurement is valid, the loop appends the measurements in order with the next
contiguous ids and leaves the line registry untouched. -/
lemma addPlane_foldl_registry (ps : List (Nat × PlaneData)) (s : Stereonet)
    (hk : s.planes.map Prod.fst = List.range s.planes.length)
    (hv : ∀ e ∈ ps, _validateDipDirection e.2.dipAngle e.2.dipDirection = true) :
    ((ps.foldl (fun acc e => (addPlane e.2.dipAngle e.2.dipDirection acc).2) s).planes.map
        Prod.fst = List.range (s.planes.length + ps.length)) ∧
    ((ps.foldl (fun acc e => (addPlane e.2.dipAngle e.2.dipDirection acc).2) s).planes.map
        (fun e => (e.2.dipAngle, e.2.dipDirection))
      = s.planes.map (fun e => (e.2.dipAngle, e.2.dipDirection))
          ++ ps.map (fun e => (e.2.dipAngle, e.2.dipDirection))) ∧
    (ps.foldl (fun acc e => (addPlane e.2.dipAngle e.2.dipDirection acc).2) s).lines
      = s.lines := by
  induction ps generalizing s with
  | nil =>
    simpa using hk
  | cons e ps ih =>
    have hv₁ : _validateDipDirection e.2.dipAngle e.2.dipDirection = true :=
      hv e (List.mem_cons_self e ps)
    have hnotmem : s.planes.length ∉ s.planes.map Prod.fst := by
      rw [hk]
      simp
    have hstep : (addPlane e.2.dipAngle e.2.dipDirection s).2.planes
        = s.planes ++ [(s.planes.length,
            ⟨e.2.dipAngle, e.2.dipDirection,
              renderPlanePath s.planeRepresentation e.2.dipAngle e.2.dipDirection⟩)] := by
      simp only [addPlane, hv₁, Bool.not_true, Bool.false_eq_true, if_false]
      exact mapSet_of_not_mem_keys _ _ _ hnotmem
    have hstep_lines : (addPlane e.2.dipAngle e.2.dipDirection s).2.lines = s.lines := by
      simp [addPlane, hv₁]
    have hlen : (addPlane e.2.dipAngle e.2.dipDirection s).2.planes.length
        = s.planes.length + 1 := by
      rw [hstep]
      simp
    have hk₁ : (addPlane e.2.dipAngle e.2.dipDirection s).2.planes.map Prod.fst
        = List.range (addPlane e.2.dipAngle e.2.dipDirection s).2.planes.length := by
      rw [hstep]
      simp [hk, List.range_succ]
    have hmeas : (addPlane e.2.dipAngle e.2.dipDirection s).2.planes.map
        (fun x => (x.2.dipAngle, x.2.dipDirection))
        = s.planes.map (fun x => (x.2.dipAngle, x.2.dipDirection))
            ++ [(e.2.dipAngle, e.2.dipDirection)] := by
      rw [hstep, List.map_append]
      simp
    have ihall := ih (addPlane e.2.dipAngle e.2.dipDirection s).2 hk₁
      (fun x hx => hv x (List.mem_cons_of_mem e hx))
    refine ⟨?_, ?_, ?_⟩
    · rw [List.foldl_cons, ihall.1, hlen, List.length_cons]
      congr 1
      omega
    · rw [List.foldl_cons, ihall.2.1, hmeas, List.map_cons, List.append_assoc,
        List.singleton_append]
    · rw [List.foldl_cons, ihall.2.2, hstep_lines]

/-- Folding `addLine` over stored line measurements: the mirror image of
`addPlane_foldl_registry` for the line registry. -/
lemma addLine_foldl_registry (ls : List (Nat × LineData)) (s : Stereonet)
    (hk : s.lines.map Prod.fst = List.range s.lines.length)
    (hv : ∀ e ∈ ls, _validateDipDirection e.2.dipAngle e.2.dipDirection = true) :
    ((ls.foldl (fun acc e => (addLine e.2.dipAngle e.2.dipDirection acc).2) s).lines.map
        Prod.fst = List.range (s.lines.length + ls.length)) ∧
    ((ls.foldl (fun acc e => (addLine e.2.dipAngle e.2.dipDirection acc).2) s).lines.map
        (fun e => (e.2.dipAngle, e.2.dipDirection))
      = s.lines.map (fun e => (e.2.dipAngle, e.2.dipDirection))
          ++ ls.map (fun e => (e.2.dipAngle, e.2.dipDirection))) ∧
    (ls.foldl (fun acc e => (addLine e.2.dipAngle e.2.dipDirection acc).2) s).planes
      = s.planes := by
  induction ls generalizing s with
  | nil =>
    simpa using hk
  | cons e ls ih =>
    have hv₁ : _validateDipDirection e.2.dipAngle e.2.dipDirection = true :=
      hv e (List.mem_cons_self e ls)
    have hnotmem : s.lines.length ∉ s.lines.map Prod.fst := by
      rw [hk]
      simp
    have hstep : (addLine e.2.dipAngle e.2.dipDirection s).2.lines
        = s.lines ++ [(s.lines.length,
            ⟨e.2.dipAngle, e.2.dipDirection,
              some (RenderedPath.point 0 (90 - e.2.dipAngle) e.2.dipDirection)⟩)] := by
      simp only [addLine, hv₁, Bool.not_true, Bool.false_eq_true, if_false]
      exact mapSet_of_not_mem_keys _ _ _ hnotmem
    have hstep_planes : (addLine e.2.dipAngle e.2.dipDirection s).2.planes = s.planes := by
      simp [addLine, hv₁]
    have hlen : (addLine e.2.dipAngle e.2.dipDirection s).2.lines.length
        = s.lines.length + 1 := by
      rw [hstep]
      simp
    have hk₁ : (addLine e.2.dipAngle e.2.dipDirection s).2.lines.map Prod.fst
        = List.range (addLine e.2.dipAngle e.2.dipDirection s).2.lines.length := by
      rw [hstep]
      simp [hk, List.range_succ]
    have hmeas : (addLine e.2.dipAngle e.2.dipDirection s).2.lines.map
        (fun x => (x.2.dipAngle, x.2.dipDirection))
        = s.lines.map (fun x => (x.2.dipAngle, x.2.dipDirection))
            ++ [(e.2.dipAngle, e.2.dipDirection)] := by
      rw [hstep, List.map_append]
      simp
    have ihall := ih (addLine e.2.dipAngle e.2.dipDirection s).2 hk₁
      (fun x hx => hv x (List.mem_cons_of_mem e hx))
    refine ⟨?_, ?_, ?_⟩
    · rw [List.foldl_cons, ihall.1, hlen, List.length_cons]
      congr 1
      omega
    · rw [List.foldl_cons, ihall.2.1, hmeas, List.map_cons, List.append_assoc,
        List.singleton_append]
    · rw [List.foldl_cons, ihall.2.2, hstep_planes]

end Stereonet

namespace Stereonet

/-- C1: the claim says plane ids increase by one per successful add and are
never reused while another plane is live.  The code derives the next id from
the current map size, so after `addPlane` (id 0), `addPlane` (id 1),
`removePlane 0`, the third successful `addPlane` returns id 1 — not the
claimed 2 — and `Map.set` overwrites the still-live plane 1 with the new
measurement.  This theorem evaluates the code at that failing input. -/
theorem planeId_reused_after_removal :
    (addPlane 50 60 (removePlane 0
        ((addPlane 30 40 ((addPlane 10 20 (mkStereonet 1000)).2)).2))).1 = some 1 ∧
    ((addPlane 50 60 (removePlane 0
        ((addPlane 30 40 ((addPlane 10 20 (mkStereonet 1000)).2)).2))).2).planes.map
        (fun e => (e.1, e.2.dipAngle, e.2.dipDirection)) = [(1, 50, 60)] := by
  norm_num [addPlane, removePlane, mkStereonet, _validateDipDirection, mapSet, mapDelete,
    renderPlanePath, _renderPlaneAsArc]

/-- C2: for dipAngle in [0, 90] and dipDirection in [0, 360] (all bounds
inclusive), `addPlane` and `addLine` succeed and return a (non-negative,
`Nat`-valued) identifier; for input outside these ranges they return no
identifier, throw nothing, and leave the whole state — plane count, line
count, and every stored entry — unchanged. -/
theorem addPlane_addLine_validation (a d : ℚ) (s : Stereonet) :
    ((0 ≤ a ∧ a ≤ 90 ∧ 0 ≤ d ∧ d ≤ 360) →
      (addPlane a d s).1 = some s.planes.length ∧
      (addLine a d s).1 = some s.lines.length) ∧
    (¬(0 ≤ a ∧ a ≤ 90 ∧ 0 ≤ d ∧ d ≤ 360) →
      addPlane a d s = (none, s) ∧ addLine a d s = (none, s)) := by
  constructor
  · intro h
    have hv : _validateDipDirection a d = true := (validate_iff a d).2 h
    constructor <;> simp [addPlane, addLine, hv]
  · intro h
    have hv : _validateDipDirection a d = false :=
      Bool.eq_false_iff.2 (fun hc => h ((validate_iff a d).1 hc))
    constructor <;> simp [addPlane, addLine, hv]

/-- C2 witness: a valid measurement gets id 0 in each namespace on a fresh
instance; an invalid dip (95) and an invalid direction (361) are rejected
with the state returned untouched. -/
theorem addPlane_addLine_validation_witness :
    ((addPlane 30 45 (mkStereonet 1000)).1 = some 0 ∧
      (addLine 30 45 (mkStereonet 1000)).1 = some 0) ∧
    (addPlane 95 45 (mkStereonet 1000) = (none, mkStereonet 1000) ∧
      addLine 30 361 (mkStereonet 1000) = (none, mkStereonet 1000)) := by
  have h1 := (addPlane_addLine_validation 30 45 (mkStereonet 1000)).1 (by norm_num)
  have h2 := (addPlane_addLine_validation 95 45 (mkStereonet 1000)).2 (by norm_num)
  have h3 := (addPlane_addLine_validation 30 361 (mkStereonet 1000)).2 (by norm_num)
  exact ⟨⟨h1.1, h1.2⟩, h2.1, h3.2⟩

/-- C3 (amended): a resize preserves the number of planes and lines and their
stored Measurements in order, and it preserves the identifier sets whenever
the identifiers are contiguous `0..n-1` — in particular whenever no removal
has left a gap.  (The counterexample shows the sets are NOT preserved after a
gap-leaving removal, because the re-add loop re-derives ids from the map
size.) -/
theorem resize_preserves_contiguous_registry (w : ℚ) (s : Stereonet)
    (hp : s.planes.map Prod.fst = List.range s.planes.length)
    (hl : s.lines.map Prod.fst = List.range s.lines.length)
    (hvp : ∀ e ∈ s.planes, _validateDipDirection e.2.dipAngle e.2.dipDirection = true)
    (hvl : ∀ e ∈ s.lines, _validateDipDirection e.2.dipAngle e.2.dipDirection = true) :
    (getPlanes (_resize w s)).map Prod.fst = (getPlanes s).map Prod.fst ∧
    (getLines (_resize w s)).map Prod.fst = (getLines s).map Prod.fst ∧
    (_resize w s).planes.map (fun e => (e.2.dipAngle, e.2.dipDirection))
      = s.planes.map (fun e => (e.2.dipAngle, e.2.dipDirection)) ∧
    (_resize w s).lines.map (fun e => (e.2.dipAngle, e.2.dipDirection))
      = s.lines.map (fun e => (e.2.dipAngle, e.2.dipDirection)) := by
  have hgp : ∀ t : Stereonet, (getPlanes t).map Prod.fst = t.planes.map Prod.fst := by
    intro t
    simp [getPlanes, List.map_map]
  have hgl : ∀ t : Stereonet, (getLines t).map Prod.fst = t.lines.map Prod.fst := by
    intro t
    simp [getLines, List.map_map]
  unfold _resize
  dsimp only
  rw [hgp, hgp, hgl, hgl]
  set cleared : Stereonet :=
    Stereonet.mk w w s.styles s.planeRepresentation s.pointSize [] [] with hcleared
  have h₁ := addPlane_foldl_registry s.planes cleared (by rfl) hvp
  set s₁ := s.planes.foldl (fun acc e => (addPlane e.2.dipAngle e.2.dipDirection acc).2)
    cleared with hs₁
  have hk₁ : s₁.lines.map Prod.fst = List.range s₁.lines.length := by
    rw [h₁.2.2]
    rfl
  have h₂ := addLine_foldl_registry s.lines s₁ hk₁ hvl
  refine ⟨?_, ?_, ?_, ?_⟩
  · rw [h₂.2.2, h₁.1, hcleared]
    simpa using hp.symm
  · rw [h₂.1, h₁.2.2, hcleared]
    simpa using hl.symm
  · rw [h₂.2.2, h₁.2.1, hcleared]
    simp
  · rw [h₂.2.1, h₁.2.2, hcleared]
    simp

/-- A two-plane, one-line registry with contiguous ids, built through the
public API, used to instantiate the amended resize theorem. -/
def resizeWitnessState : Stereonet :=
  (addLine 45 60 ((addPlane 30 40 ((addPlane 10 20 (mkStereonet 1000)).2)).2)).2

/-- C3 witness: on a registry with contiguous ids (no removals), a resize to
width 500 keeps both identifier sequences. -/
theorem resize_preserves_contiguous_registry_witness :
    (getPlanes (_resize 500 resizeWitnessState)).map Prod.fst
      = (getPlanes resizeWitnessState).map Prod.fst ∧
    (getLines (_resize 500 resizeWitnessState)).map Prod.fst
      = (getLines resizeWitnessState).map Prod.fst := by
  have hstate : resizeWitnessState =
      { mkStereonet 1000 with
        planes := [(0, ⟨10, 20, some (RenderedPath.arc 80 81 (-70))⟩),
                   (1, ⟨30, 40, some (RenderedPath.arc 60 61 (-50))⟩)],
        lines := [(0, ⟨45, 60, some (RenderedPath.point 0 45 60)⟩)] } := by
    norm_num [resizeWitnessState, addPlane, addLine, mkStereonet, _validateDipDirection,
      mapSet, renderPlanePath, _renderPlaneAsArc]
  have h := resize_preserves_contiguous_registry 500 resizeWitnessState
    (by rw [hstate]; norm_num [mkStereonet, List.range_succ])
    (by rw [hstate]; norm_num [mkStereonet, List.range_succ])
    (by
      rw [hstate]
      intro e he
      norm_num [mkStereonet] at he
      rcases he with h | h <;> subst h <;> norm_num [_validateDipDirection])
    (by
      rw [hstate]
      intro e he
      norm_num [mkStereonet] at he
      subst he
      norm_num [_validateDipDirection])
  exact ⟨h.1, h.2.1⟩

/-- C3 counterexample: after three adds (ids 0, 1, 2) and `removePlane 1`,
the registry holds ids `{0, 2}`; a resize re-derives ids from the map size
and returns ids `{0, 1}` — id 2 is gone, so the claimed "same set of plane
identifiers" fails at this input. -/
theorem resize_id_set_counterexample :
    (getPlanes (removePlane 1 ((addPlane 30 40 ((addPlane 20 30 ((addPlane 10 20
        (mkStereonet 1000)).2)).2)).2))).map Prod.fst = [0, 2] ∧
    (getPlanes (_resize 500 (removePlane 1 ((addPlane 30 40 ((addPlane 20 30 ((addPlane 10 20
        (mkStereonet 1000)).2)).2)).2)))).map Prod.fst = [0, 1] ∧
    (2 : Nat) ∈ [0, 2] ∧ (2 : Nat) ∉ [0, 1] := by
  refine ⟨?_, ?_, by decide, by decide⟩ <;>
    norm_num [addPlane, removePlane, getPlanes, _resize, mkStereonet, _validateDipDirection,
      mapSet, mapDelete, renderPlanePath, _renderPlaneAsArc]

/-- C4: switching the plane representation to `"pole"` and back to `"arc"`
restores, for every plane, the stored dipAngle and dipDirection Measurement
under its original identifier: representation switching rebuilds only the
derived geometry, never the stored Measurements. -/
theorem setRepresentation_roundtrip_measurements (s : Stereonet) :
    ((setPlaneRepresentation "arc" (setPlaneRepresentation "pole" s).1).1).planes.map
        (fun e => (e.1, e.2.dipAngle, e.2.dipDirection)) =
      s.planes.map (fun e => (e.1, e.2.dipAngle, e.2.dipDirection)) := by
  simp [setPlaneRepresentation, List.map_map, Function.comp]

/-- C5: for a valid dip direction the pole direction equals
`(dipDirection + 180) mod 360`, stays inside `[0, 360)`, and the complement
component is `90 - dipAngle`. -/
theorem poleCoordinates_mod_spec (a d : ℚ) (hd0 : 0 ≤ d) (hd1 : d ≤ 360) :
    (_calculatePoleCoordinates a d).1 = 90 - a ∧
    (_calculatePoleCoordinates a d).2 = qmod (d + 180) 360 ∧
    0 ≤ (_calculatePoleCoordinates a d).2 ∧ (_calculatePoleCoordinates a d).2 < 360 := by
  have hsnd : (_calculatePoleCoordinates a d).2 =
      if (360:ℚ) ≤ d + 180 then d + 180 - 360 else d + 180 := rfl
  by_cases h : (360:ℚ) ≤ d + 180
  · have hf : ⌊(d + 180) / 360⌋ = 1 := by
      rw [Int.floor_eq_iff]
      constructor
      · rw [le_div_iff₀ (by norm_num : (0:ℚ) < 360)]
        push_cast
        linarith
      · rw [div_lt_iff₀ (by norm_num : (0:ℚ) < 360)]
        push_cast
        linarith
    rw [hsnd, if_pos h]
    refine ⟨rfl, ?_, by linarith, by linarith⟩
    rw [qmod, hf]
    push_cast
    ring
  · have hf : ⌊(d + 180) / 360⌋ = 0 := by
      rw [Int.floor_eq_iff]
      constructor
      · rw [le_div_iff₀ (by norm_num : (0:ℚ) < 360)]
        push_cast
        linarith
      · rw [div_lt_iff₀ (by norm_num : (0:ℚ) < 360)]
        push_cast
        linarith
    push_neg at h
    rw [hsnd, if_neg (not_le.2 h)]
    refine ⟨rfl, ?_, by linarith, by linarith⟩
    rw [qmod, hf]
    push_cast
    ring

/-- C5 witness: the spec's concrete scenario — dipDirection 257 yields pole
direction `(257 + 180) mod 360 = 77`. -/
theorem poleCoordinates_mod_spec_witness :
    (_calculatePoleCoordinates (83.2 : ℚ) 257).1 = 90 - 83.2 ∧
    (_calculatePoleCoordinates (83.2 : ℚ) 257).2 = qmod (257 + 180) 360 ∧
    qmod ((257 : ℚ) + 180) 360 = 77 ∧
    (_calculatePoleCoordinates (83.2 : ℚ) 257).2 = 77 := by
  have h := poleCoordinates_mod_spec 83.2 257 (by norm_num) (by norm_num)
  have hq : qmod ((257 : ℚ) + 180) 360 = 77 := by
    have hf : ⌊((257 : ℚ) + 180) / 360⌋ = 1 := by
      rw [Int.floor_eq_iff]
      norm_num
    rw [qmod, hf]
    norm_num
  exact ⟨h.1, h.2.1, hq, by rw [h.2.1, hq]⟩

/-- C6 (amended): the pole-direction computation satisfies
`poleDipDirection(d) = poleDipDirection(d + 360)` exactly on the half-turn
window `-180 ≤ d < 180` — the normalization subtracts 360 at most once, so
the unrestricted periodicity of the claim fails (see the counterexample). -/
theorem poleDir_periodic_on_halfturn (a d : ℚ) (h1 : -180 ≤ d) (h2 : d < 180) :
    (_calculatePoleCoordinates a d).2 = (_calculatePoleCoordinates a (d + 360)).2 := by
  unfold _calculatePoleCoordinates
  simp only [ge_iff_le]
  rw [if_neg (by push_neg; linarith), if_pos (by linarith)]
  ring

/-- C6 witness: at dipDirection 45 the periodicity holds. -/
theorem poleDir_periodic_on_halfturn_witness :
    ((-180 : ℚ) ≤ 45 ∧ (45 : ℚ) < 180) ∧
    (_calculatePoleCoordinates 30 45).2 = (_calculatePoleCoordinates 30 (45 + 360)).2 := by
  exact ⟨by norm_num, poleDir_periodic_on_halfturn 30 45 (by norm_num) (by norm_num)⟩

/-- C6 counterexample: at dipDirection 200 the code yields pole direction 20,
but at 200 + 360 it yields 380 (the single `- 360` cannot wrap twice), so the
claimed periodicity for EVERY dipDirection is false. -/
theorem poleDir_period_counterexample :
    (_calculatePoleCoordinates 0 200).2 = 20 ∧
    (_calculatePoleCoordinates 0 (200 + 360)).2 = 380 ∧
    (_calculatePoleCoordinates 0 200).2 ≠ (_calculatePoleCoordinates 0 (200 + 360)).2 := by
  norm_num [_calculatePoleCoordinates]

/-- C7 (amended): for a valid measurement, `addLine` stores under the new id
a point on the central meridian at latitude `90 - dipAngle` — that is, at
angular (polar) distance `90 - dipAngle` from the plot centre, not
`dipAngle` as claimed — rotated about the plot centre by `dipDirection`
itself, with no 180-degree flip. -/
theorem addLine_point_geometry (a d : ℚ) (s : Stereonet)
    (h : _validateDipDirection a d = true) :
    mapFind ((addLine a d s).2.lines) s.lines.length =
      some ⟨a, d, some (RenderedPath.point 0 (90 - a) d)⟩ ∧
    centralMeridianPolarDistance (90 - a) = 90 - a := by
  constructor
  · simp only [addLine, h, Bool.not_true, Bool.false_eq_true, if_false]
    exact mapFind_mapSet_self _ _ _
  · have ha : a ≤ 90 := ((validate_iff a d).1 h).2.1
    exact abs_of_nonneg (by linarith)

/-- C7 witness: the spec's line measurement (45, 336.6546) is stored as the
point at latitude 45 rotated by 336.6546. -/
theorem addLine_point_geometry_witness :
    mapFind ((addLine 45 336.6546 (mkStereonet 1000)).2.lines) 0 =
      some ⟨45, 336.6546, some (RenderedPath.point 0 (90 - 45) 336.6546)⟩ ∧
    centralMeridianPolarDistance (90 - 45) = 90 - 45 := by
  exact addLine_point_geometry 45 336.6546 (mkStereonet 1000)
    (by rw [validate_iff]; norm_num)

/-- C7 counterexample: `addLine(30, 40)` renders the point at latitude 60,
i.e. at polar distance 60 from the plot centre — not at polar distance
dipAngle = 30 as the claim states. -/
theorem addLine_polar_distance_counterexample :
    (addLine 30 40 (mkStereonet 1000)).2.lines =
      [(0, ⟨30, 40, some (RenderedPath.point 0 60 40)⟩)] ∧
    centralMeridianPolarDistance 60 = 60 ∧ (60 : ℚ) ≠ 30 := by
  refine ⟨?_, by norm_num [centralMeridianPolarDistance], by norm_num⟩
  norm_num [addLine, mkStereonet, _validateDipDirection, mapSet]

/-- C8: `setPlaneRepresentation` with a mode other than `"arc"` / `"pole"`
throws the invalid-argument error before any mutation: the returned state is
exactly the input state — same representation mode, same plane entries, same
rendered primitives. -/
theorem setRepresentation_invalid_mode_noop (mode : String) (s : Stereonet)
    (h1 : mode ≠ "pole") (h2 : mode ≠ "arc") :
    setPlaneRepresentation mode s =
      (s, some ("Invalid representation type: " ++ mode ++ ". Use \"pole\" or \"arc\".")) := by
  simp [setPlaneRepresentation, h1, h2]

/-- C8 witness: the unrecognized mode `"circle"` is rejected on a fresh
instance and the state comes back unchanged. -/
theorem setRepresentation_invalid_mode_noop_witness :
    setPlaneRepresentation "circle" (mkStereonet 1000) =
      (mkStereonet 1000, some "Invalid representation type: circle. Use \"pole\" or \"arc\".") := by
  rw [setRepresentation_invalid_mode_noop "circle" (mkStereonet 1000)
    (by decide) (by decide)]
  rfl

/-- C9: after `removePlane id`, `getPlanes` never lists `id`, and a second
`removePlane id` with no intervening add returns the state unchanged —
removal is idempotent, and removing an absent id is a no-op. -/
theorem removePlane_excludes_and_idempotent (s : Stereonet) (planeId : Nat) :
    planeId ∉ (getPlanes (removePlane planeId s)).map Prod.fst ∧
    removePlane planeId (removePlane planeId s) = removePlane planeId s := by
  constructor
  · simp only [getPlanes, removePlane, mapDelete, List.map_map, List.mem_map]
    rintro ⟨e, he, heq⟩
    have hp := (List.mem_filter.1 he).2
    simp only [Bool.not_eq_true', beq_eq_false_iff_ne] at hp
    exact hp heq
  · simp only [removePlane, mapDelete]
    congr 1
    apply List.filter_eq_self.2
    intro e he
    exact (List.mem_filter.1 he).2

/-- C10: for a class name present in the style store, `getStyle` returns the
stored style serialized to a single string (`key: value;` entries joined by
single spaces) — the string representation, not the stored object; for an
absent class name it throws the not-found error; and a style just written by
`setStyle` is read back serialized. -/
theorem getStyle_serialization (s : Stereonet) (className : String) :
    (∀ st, mapFind s.styles className = some st →
      getStyle className s = Except.ok (serializeStyle st)) ∧
    (mapFind s.styles className = none →
      getStyle className s =
        Except.error ("Style for class \"" ++ className ++ "\" not found.")) ∧
    (∀ st, getStyle className (setStyle className st s) =
      Except.ok (serializeStyle st)) := by
  refine ⟨?_, ?_, ?_⟩
  · intro st hst
    simp [getStyle, hst]
  · intro hst
    simp [getStyle, hst]
  · intro st
    simp [getStyle, setStyle, mapFind_mapSet_self]

/-- C10 witness: on a fresh instance the default `"outline"` class
serializes to its `key: value;` string, and an unregistered class name
produces the not-found error. -/
theorem getStyle_serialization_witness :
    getStyle "outline" (mkStereonet 1000) =
      Except.ok "fill: none; stroke: #000; stroke-width: 4px; stroke-opacity: 0.5;" ∧
    getStyle "no-such-class" (mkStereonet 1000) =
      Except.error "Style for class \"no-such-class\" not found." := by
  constructor
  · have h := (getStyle_serialization (mkStereonet 1000) "outline").1
      [("fill", "none"), ("stroke", "#000"), ("stroke-width", "4px"),
       ("stroke-opacity", "0.5")] rfl
    rw [h]
    rfl
  · have h := (getStyle_serialization (mkStereonet 1000) "no-such-class").2.1 rfl
    rw [h]
    rfl

end Stereonet
